import Mathlib

/-!
# Trade lifecycle engine: a shallow embedding

This file embeds the core of the cryptotrader trade lifecycle engine in Lean:
the order state machine (`state/state_machine.py`), the portfolio ledger and
execution accounting (`app/lifecycle.py`), the risk gate
(`risk/risk_manager.py`), the portfolio metrics (`risk/metrics.py`), the fill
reconciliation dedup logic (`execution/order_tracker.py`) and the kill switch
(`monitoring/killswitch.py`).  Python floats are modelled as rationals,
Python dicts as association lists that preserve insertion order, and the
float infinity produced by `compute_exposure` on non-positive equity is
modelled as `none` in an `Option ℚ`.  Functions that raise are modelled with
`Except`; functions that silently return are total.
-/

namespace CryptoTrader

/-- Order lifecycle states, from `state/models.py` (`OrderState`). -/
inductive OrderState where
  | created
  | submitted
  | partially_filled
  | filled
  | closed
  | canceled
  | rejected
deriving DecidableEq, Repr, Fintype

/-- Printable name of a state, standing in for Python's enum string values. -/
def stateName : OrderState → String
  | .created => "created"
  | .submitted => "submitted"
  | .partially_filled => "partially_filled"
  | .filled => "filled"
  | .closed => "closed"
  | .canceled => "canceled"
  | .rejected => "rejected"

/-- Immutable order record, from `state/models.py` (`Order`). -/
structure Order where
  order_id : String
  client_order_id : String
  symbol : String
  side : String
  quantity : ℚ
  status : OrderState
  signal_id : String
deriving DecidableEq, Repr

/-- The allow-set of each state, from the `valid` dict in
`state/state_machine.py` (`OrderStateMachine.transition`). -/
def validTargets : OrderState → List OrderState
  | .created => [.submitted, .canceled, .rejected]
  | .submitted => [.partially_filled, .filled, .canceled, .rejected]
  | .partially_filled => [.filled, .canceled, .rejected]
  | .filled => [.closed]
  | .closed => []
  | .canceled => []
  | .rejected => []

/-- `OrderStateMachine.transition` from `state/state_machine.py`: the
`ValueError` raised on a disallowed transition is modelled as `Except.error`;
an allowed transition returns a new order with the target status. -/
def OrderStateMachine.transition (order : Order) (new_state : OrderState) :
    Except String Order :=
  if new_state ∈ validTargets order.status then
    Except.ok { order with status := new_state }
  else
    Except.error ("Invalid state transition " ++ stateName order.status
      ++ " -> " ++ stateName new_state)

/-- Kill switch latch, from `monitoring/killswitch.py`. -/
structure KillSwitch where
  enabled : Bool := true
  triggered : Bool := false
  reason : Option String := none
deriving DecidableEq, Repr

/-- `KillSwitch.trigger`: a no-op when disabled, otherwise latches. -/
def KillSwitch.trigger (ks : KillSwitch) (reason : String) : KillSwitch :=
  if ks.enabled = false then ks
  else { ks with triggered := true, reason := some reason }

/-- Open position, one per symbol, from `state/models.py` (`Position`):
the dataclass declares exactly these six fields.  `app/lifecycle.py`
additionally constructs it with `entry_ts`, `max_hold_seconds`, `entry_atr`
and `fees_paid` keyword arguments and reads those attributes; on this
dataclass the former raises `TypeError` and the latter `AttributeError`
(see `positionCtorError` and `positionAttrError`). -/
structure Position where
  symbol : String
  quantity : ℚ
  entry_price : ℚ
  side : String
  max_price : ℚ
  min_price : ℚ
deriving DecidableEq, Repr

/-- The `TypeError` raised by the generated six-field `Position.__init__`
when the lifecycle calls it with the four extra keyword arguments
(`app/lifecycle.py` lines 377-388 and 432-443): the first unexpected
keyword is `entry_ts`. -/
def positionCtorError : String :=
  "TypeError: Position.__init__() got an unexpected keyword argument entry_ts"

/-- The `AttributeError` raised when the lifecycle reads an attribute the
six-field `Position` does not declare (`fees_paid`, `entry_atr`,
`entry_ts`). -/
def positionAttrError (attr : String) : String :=
  "AttributeError: Position object has no attribute " ++ attr

/-- Insertion-ordered association-list lookup, modelling `dict.get`. -/
def alistGet {β : Type} : List (String × β) → String → Option β
  | [], _ => none
  | (k', v) :: rest, k => if k' = k then some v else alistGet rest k

/-- Association-list store, modelling `dict[k] = v` (replace in place, or
append a new key at the end, as Python dicts do). -/
def alistSet {β : Type} : List (String × β) → String → β → List (String × β)
  | [], k, v => [(k, v)]
  | (k', v') :: rest, k, v =>
    if k' = k then (k, v) :: rest else (k', v') :: alistSet rest k v

/-- Association-list removal, modelling `dict.pop(k, None)` on a dict with
unique keys. -/
def alistErase {β : Type} : List (String × β) → String → List (String × β)
  | [], _ => []
  | (k', v') :: rest, k =>
    if k' = k then rest else (k', v') :: alistErase rest k

/-- Portfolio ledger, from `state/models.py` (`PortfolioState`).
`gross_exposure` is `Option ℚ`: `none` models the `float("inf")` that
`compute_exposure` stores when equity is non-positive. -/
structure PortfolioState where
  equity : ℚ
  daily_drawdown : ℚ
  consecutive_losses : ℕ
  open_positions : List (String × Position) := []
  gross_exposure : Option ℚ := some 0
  correlation : ℚ := 0
  expectancy : ℚ := 0
  daily_start_equity : ℚ := 0
  daily_peak_equity : ℚ := 0
  daily_day : ℤ := 0
deriving DecidableEq, Repr

/-- Realized-P&L record, from `state/models.py` (`Trade`).  The generated
UUID `trade_id` is modelled as the empty string (its value is never read). -/
structure Trade where
  trade_id : String
  order_id : String
  symbol : String
  entry_price : ℚ
  exit_price : ℚ
  quantity : ℚ
  pnl : ℚ
  fees : ℚ
  slippage_bps : ℚ
  strategy : Option String := none
deriving DecidableEq, Repr

/-- `update_daily_drawdown` from `risk/metrics.py`.  Python's floor division
`timestamp // 86400` is `Int.fdiv`. -/
def update_daily_drawdown (portfolio : PortfolioState) (timestamp : ℤ) :
    PortfolioState :=
  if timestamp ≤ 0 then portfolio
  else
    let day := Int.fdiv timestamp 86400
    let p :=
      if portfolio.daily_day ≠ day ∨ portfolio.daily_start_equity ≤ 0 then
        { portfolio with
            daily_day := day
            daily_start_equity := portfolio.equity
            daily_peak_equity := portfolio.equity }
      else portfolio
    let p :=
      if p.daily_peak_equity < p.equity then
        { p with daily_peak_equity := p.equity }
      else p
    if 0 < p.daily_peak_equity then
      { p with
          daily_drawdown :=
            (p.daily_peak_equity - p.equity) / p.daily_peak_equity }
    else
      { p with daily_drawdown := 0 }

/-- Result of `compute_exposure` from `risk/metrics.py`. -/
structure ExposureSnapshot where
  gross_notional : ℚ
  net_notional : ℚ
  gross_exposure : Option ℚ
  correlation : ℚ
deriving DecidableEq, Repr

/-- `compute_exposure` from `risk/metrics.py`: gross and net notional over
open positions priced at last-seen price (entry price as fallback);
`gross_exposure` is `none` (float infinity) when equity is non-positive. -/
def compute_exposure (open_positions : List (String × Position))
    (last_prices : List (String × ℚ)) (equity : ℚ) : ExposureSnapshot :=
  let totals := open_positions.foldl
    (fun (acc : ℚ × ℚ) kv =>
      let position := kv.2
      let price := (alistGet last_prices position.symbol).getD position.entry_price
      let notional := price * position.quantity
      (acc.1 + |notional|,
        if position.side = "LONG" then acc.2 + notional else acc.2 - notional))
    (0, 0)
  let gross_notional := totals.1
  let net_notional := totals.2
  { gross_notional := gross_notional
    net_notional := net_notional
    gross_exposure :=
      if equity ≤ 0 then none else some (gross_notional / equity)
    correlation :=
      if 0 < gross_notional then |net_notional| / gross_notional else 0 }

/-- The `expectancy` component of `StatisticsCollector.snapshot` from
`analytics/collector.py`: mean trade P&L, `0.0` with no trades. -/
def expectancyOf (trades : List Trade) : ℚ :=
  if trades = [] then 0
  else (trades.foldl (fun acc t => acc + t.pnl) 0) / trades.length

/-- The state threaded through `TradingApplication`: the portfolio ledger,
the realized trades accumulated by `StatisticsCollector` and the
`last_prices` map tracked by `run`. -/
structure SysState where
  portfolio : PortfolioState
  trades : List Trade := []
  last_prices : List (String × ℚ) := []
deriving DecidableEq, Repr

/-- The configuration slice the accounting reads: `runtime.mode` plus the
backtest fee/slippage basis points. -/
structure AppCfg where
  mode : String
  slippage_bps : ℚ := 0
  fee_bps : ℚ := 0
deriving DecidableEq, Repr

/-- `TradingApplication._slippage_rate`. -/
def slippageRate (cfg : AppCfg) (override : Option ℚ) : ℚ :=
  match override with
  | some s => s
  | none => if cfg.mode = "live" then 0 else cfg.slippage_bps / 10000

/-- `TradingApplication._fee_rate`. -/
def feeRate (cfg : AppCfg) : ℚ :=
  if cfg.mode = "live" then 0 else cfg.fee_bps / 10000

/-- `TradingApplication._fee_for_qty`. -/
def feeForQty (cfg : AppCfg) (price quantity : ℚ) (fee_override : Option ℚ) : ℚ :=
  match fee_override with
  | some f => f
  | none => price * quantity * feeRate cfg

/-- `TradingApplication._allocate_fee_override`. -/
def allocateFeeOverride (fee_override : Option ℚ) (portion_qty total_qty : ℚ) :
    Option ℚ :=
  match fee_override with
  | none => none
  | some f =>
    if total_qty ≤ 0 then some 0 else some (f * (portion_qty / total_qty))

/-- `TradingApplication._refresh_portfolio_metrics`: daily drawdown roll,
exposure/correlation recompute from last-seen prices, expectancy recompute
from all realized trades. -/
def refreshMetrics (st : SysState) (timestamp : ℤ) : SysState :=
  let p := update_daily_drawdown st.portfolio timestamp
  let exposure := compute_exposure p.open_positions st.last_prices p.equity
  { st with
      portfolio :=
        { p with
            gross_exposure := exposure.gross_exposure
            correlation := exposure.correlation
            expectancy := expectancyOf st.trades } }

/-- One `_apply_execution` call's arguments. -/
structure ExecCall where
  symbol : String
  side : String
  quantity : ℚ
  price : ℚ
  timestamp : ℤ
  order_id : String
  strategy : Option String := none
  allow_add : Bool := false
  max_hold_seconds : ℤ := 0
  entry_atr : ℚ := 0
  fee_override : Option ℚ := none
  slippage_override : Option ℚ := none
deriving DecidableEq, Repr

/-- `TradingApplication._apply_execution` from `app/lifecycle.py`, run
against the six-field `Position` dataclass of `state/models.py`.  The
non-positive size/price guard (line 370) returns silently.  The slippage
rate and the entry fee are computed (lines 373-374) before the branch on
the held position.  The no-position branch calls `Position(...)` with the
four extra keyword arguments (lines 377-388), which the dataclass
`__init__` rejects with a `TypeError`, so nothing is ever stored.  The
same-side branch returns silently when adds are not allowed (line 394) and
otherwise raises `AttributeError` reading `position.fees_paid` (line 400).
The opposite-side branch computes `exit_qty` and the exit fee (lines
406-408) and then reads `position.fees_paid` — at line 411 when the held
quantity is positive, at line 426 otherwise — raising `AttributeError`
before any trade is recorded, any position reduced or any reversal
constructed.  An uncaught raise propagates out of `run`. -/
def applyExecution (cfg : AppCfg) (st : SysState) (c : ExecCall) :
    Except String SysState :=
  if c.quantity ≤ 0 ∨ c.price ≤ 0 then .ok st
  else
    let _slippage_rate := slippageRate cfg c.slippage_override
    let _entry_fee := feeForQty cfg c.price c.quantity c.fee_override
    match alistGet st.portfolio.open_positions c.symbol with
    | none => .error positionCtorError
    | some position =>
      if position.side = c.side then
        if c.allow_add then .error (positionAttrError "fees_paid")
        else .ok st
      else
        let exit_qty := min position.quantity c.quantity
        let _exit_fee := feeForQty cfg c.price exit_qty
          (allocateFeeOverride c.fee_override exit_qty c.quantity)
        if 0 < position.quantity then .error (positionAttrError "fees_paid")
        else .error (positionAttrError "fees_paid")

/-- One exchange execution report, from `execution/order_tracker.py`
(`FillEvent`). -/
structure FillEvent where
  exec_id : String
  order_id : String
  symbol : String
  side : String
  price : ℚ
  quantity : ℚ
  fee : ℚ
  timestamp : ℤ
deriving DecidableEq, Repr

/-- `TradingApplication._apply_fill_accounting`: map the exchange side to an
accounting side, guard non-positive quantity/price, and apply through
`_apply_execution` with `allow_add=True`, the exchange-reported fee and a
zero slippage override (the repository write of the `Fill` row is I/O and
is not modelled).  A raise inside `_apply_execution` propagates. -/
def applyFillAccounting (cfg : AppCfg) (st : SysState) (f : FillEvent) :
    Except String SysState :=
  let side := if f.side.toLower = "buy" then "LONG" else "SHORT"
  if f.quantity ≤ 0 ∨ f.price ≤ 0 then .ok st
  else
    applyExecution cfg st
      { symbol := f.symbol
        side := side
        quantity := f.quantity
        price := f.price
        timestamp := f.timestamp
        order_id := f.order_id
        strategy := some "fill_execution"
        allow_add := true
        max_hold_seconds := 0
        entry_atr := 0
        fee_override := some f.fee
        slippage_override := some 0 }

/-- The reconciliation state of `BybitOrderTracker`: the thread-safe
`_seen_exec_ids` set, the `_fills` queue and the `_open_orders` map. -/
structure ReconState where
  seen_exec_ids : List String := []
  fills : List FillEvent := []
  open_orders : List (String × String) := []
deriving DecidableEq, Repr

/-- The push path: one execution report received in `_run_private_ws`.
A non-empty `exec_id` is checked-and-inserted in the seen set before
enqueueing; an empty `exec_id` bypasses the dedup check entirely.  The
fill's order is untracked once a fill for it arrives. -/
def wsIngest (r : ReconState) (f : FillEvent) : ReconState :=
  if f.exec_id ≠ "" ∧ f.exec_id ∈ r.seen_exec_ids then r
  else
    let r :=
      if f.exec_id ≠ "" then
        { r with seen_exec_ids := f.exec_id :: r.seen_exec_ids }
      else r
    let r := { r with fills := r.fills ++ [f] }
    if f.order_id ≠ "" then
      { r with open_orders := alistErase r.open_orders f.order_id }
    else r

/-- The poll path: one execution report processed by
`BybitOrderTracker._collect_executions`.  Reports without an `exec_id` are
skipped; the rest are deduplicated against the same seen set. -/
def pollIngest (r : ReconState) (f : FillEvent) : ReconState :=
  if f.exec_id = "" then r
  else if f.exec_id ∈ r.seen_exec_ids then r
  else
    { r with
        seen_exec_ids := f.exec_id :: r.seen_exec_ids
        fills := r.fills ++ [f] }

/-- Route one report through the push path (`true`) or the poll path
(`false`). -/
def ingest (r : ReconState) (e : Bool × FillEvent) : ReconState :=
  if e.1 then wsIngest r e.2 else pollIngest r e.2

/-- Feed a sequence of reports through the two reconciliation sources. -/
def feedEvents (r : ReconState) (events : List (Bool × FillEvent)) : ReconState :=
  events.foldl ingest r

/-- `BybitOrderTracker.drain_fills`: hand the queued fills to the consumer,
leaving the queue empty. -/
def drainFills (r : ReconState) : List FillEvent × ReconState :=
  (r.fills, { r with fills := [] })

/-- The loop of `_process_fill_events`: apply the drained fills in order
through `_apply_fill_accounting`; the first raise aborts the loop (and
`run`), leaving the remaining fills unapplied. -/
def applyDrained (cfg : AppCfg) : SysState → List FillEvent →
    Except String SysState
  | st, [] => .ok st
  | st, f :: rest =>
    match applyFillAccounting cfg st f with
    | .ok st' => applyDrained cfg st' rest
    | .error msg => .error msg

/-- One orchestrator pass of `_process_fill_events` preceded by the sources
ingesting `events`: feed, drain, and apply every drained fill through
Execution Accounting.  A pipeline whose previous pass raised performs no
further work: the exception has ended the program. -/
def reconCycle (cfg : AppCfg) (events : List (Bool × FillEvent))
    (p : ReconState × Except String SysState) :
    ReconState × Except String SysState :=
  match p.2 with
  | .error _ => p
  | .ok st =>
    let r := feedEvents p.1 events
    let d := drainFills r
    (d.2, applyDrained cfg st d.1)

/-- Iterate the feed-drain-apply pass `n` times on the same event sequence. -/
def reconCycles (cfg : AppCfg) (events : List (Bool × FillEvent)) :
    ℕ → ReconState × Except String SysState →
      ReconState × Except String SysState
  | 0, p => p
  | n + 1, p => reconCycles cfg events n (reconCycle cfg events p)

/-- The risk configuration, from `config/config_schema.py` (`RiskConfig`),
restricted to the fields the risk gate and the exit evaluator read. -/
structure RiskConfig where
  risk_per_trade : ℚ := 0
  max_daily_drawdown : ℚ := 1
  max_consecutive_losses : ℕ := 1000
  min_expectancy : ℚ := 0
  correlation_limit : ℚ := 1000
  exposure_limit : ℚ := 1000
  volatility_adjustment_high : ℚ := 1
  volatility_adjustment_normal : ℚ := 1
  volatility_adjustment_low : ℚ := 1
  stop_loss_pct : ℚ := 0
  take_profit_pct : ℚ := 0
  trailing_take_profit_pct : ℚ := 0
  atr_period : ℤ := 0
  atr_sl_mult : ℚ := 0
  atr_tp_mult : ℚ := 0
  atr_trailing_mult : ℚ := 0
deriving DecidableEq, Repr

/-- A strategy signal, from `signals/signal.py`.  Of the free-form metadata
dict, `approve` reads the truthiness of `force_execute` (a `Bool` here) and
`order_notional` (unparseable values collapse to `0.0`, so only parsed
values are modelled). -/
structure Signal where
  symbol : String
  direction : String
  confidence : ℚ
  horizon : String := ""
  volatility_regime : String := "normal"
  force_execute : Bool := false
  order_notional : Option ℚ := none
  signal_id : String := ""
deriving DecidableEq, Repr

/-- The risk gate's verdict, from `risk/risk_manager.py` (`RiskDecision`). -/
structure RiskDecision where
  approved : Bool
  reason : Option String
  size : ℚ
deriving DecidableEq, Repr

/-- `position_size` from `risk/sizing.py`. -/
def position_size (equity risk_per_trade confidence volatility_adjustment : ℚ) :
    ℚ :=
  equity * risk_per_trade * confidence * volatility_adjustment

/-- `DefaultRiskManager._volatility_adjustment`. -/
def volatilityAdjustment (cfg : RiskConfig) (regime : String) : ℚ :=
  if regime = "high" then cfg.volatility_adjustment_high
  else if regime = "low" then cfg.volatility_adjustment_low
  else cfg.volatility_adjustment_normal

/-- Comparison of the possibly-infinite stored gross exposure against a
finite limit: float infinity exceeds every finite limit. -/
def geOpt (x : Option ℚ) (limit : ℚ) : Bool :=
  match x with
  | none => true
  | some v => decide (limit ≤ v)

/-- `DefaultRiskManager.approve` from `risk/risk_manager.py`.  The
`force_execute` branch comes first; then the ordered checks; then sizing
clipped to the equity still available under the exposure limit.  In the
sizing step a stored infinite gross exposure gives
`max(0.0, finite - inf) = 0.0` available (that code path is only reached
with positive equity). -/
def approve (cfg : RiskConfig) (signal : Signal) (portfolio : PortfolioState) :
    RiskDecision :=
  if signal.force_execute then
    match alistGet portfolio.open_positions signal.symbol with
    | some existing =>
      if signal.direction = "FLAT" ∨ signal.direction ≠ existing.side then
        ⟨true, some "exit_position", existing.quantity⟩
      else ⟨false, some "existing_position", 0⟩
    | none =>
      let notional := signal.order_notional.getD 0
      if notional ≤ 0 then ⟨false, some "invalid_notional", 0⟩
      else ⟨true, some "forced", notional⟩
  else if portfolio.equity ≤ 0 then ⟨false, some "no_equity", 0⟩
  else if cfg.max_consecutive_losses ≤ portfolio.consecutive_losses then
    ⟨false, some "max_consecutive_losses", 0⟩
  else if cfg.max_daily_drawdown ≤ portfolio.daily_drawdown then
    ⟨false, some "max_daily_drawdown", 0⟩
  else
    match alistGet portfolio.open_positions signal.symbol with
    | some existing =>
      if signal.direction = "FLAT" ∨ signal.direction ≠ existing.side then
        ⟨true, some "exit_position", existing.quantity⟩
      else ⟨false, some "existing_position", 0⟩
    | none =>
      if 0 < cfg.min_expectancy ∧ portfolio.expectancy < cfg.min_expectancy then
        ⟨false, some "min_expectancy", 0⟩
      else if geOpt portfolio.gross_exposure cfg.exposure_limit then
        ⟨false, some "exposure_limit", 0⟩
      else if cfg.correlation_limit ≤ portfolio.correlation then
        ⟨false, some "correlation_limit", 0⟩
      else if signal.confidence < 1 / 100 then
        ⟨false, some "low_confidence", 0⟩
      else
        let volatility_adjustment :=
          volatilityAdjustment cfg signal.volatility_regime
        let size := position_size portfolio.equity cfg.risk_per_trade
          signal.confidence volatility_adjustment
        let max_gross := portfolio.equity * cfg.exposure_limit
        let available :=
          match portfolio.gross_exposure with
          | none => 0
          | some g => max 0 (max_gross - g * portfolio.equity)
        if available ≤ 0 then ⟨false, some "exposure_limit", 0⟩
        else
          let size := if available < size then available else size
          if size ≤ 0 then ⟨false, some "exposure_limit", 0⟩
          else ⟨true, none, size⟩

/-- One OHLCV bar.  `open_price` renames the source's `open` field (a Lean
keyword); the exit evaluator reads symbol, timeframe, timestamp, high, low
and close. -/
structure Candle where
  timestamp : ℤ
  open_price : ℚ := 0
  high : ℚ
  low : ℚ
  close : ℚ
  volume : ℚ := 0
  symbol : String
  timeframe : String := ""
deriving DecidableEq, Repr

/-- The `atr_enabled` condition of `_apply_candle_stops`. -/
def atrEnabled (cfg : RiskConfig) : Bool :=
  decide (0 < cfg.atr_period) &&
    (decide (0 < cfg.atr_sl_mult) || decide (0 < cfg.atr_tp_mult) ||
      decide (0 < cfg.atr_trailing_mult))

/-- `TradingApplication._apply_candle_stops` from `app/lifecycle.py`, run
against the six-field `Position`.  After the empty-ledger early return and
the all-stops-disabled early return, the loop body's first statement on a
position stored under the bar's symbol reads `position.entry_atr`
(line 679), an attribute the source dataclass does not declare: the
evaluation raises `AttributeError` before any stop, trailing or
take-profit level is computed or compared and before any exit reason could
be recorded.  A ledger holding no position under the bar's symbol is
traversed without effect. -/
def applyCandleStops (cfg : RiskConfig) (app : AppCfg) (st : SysState)
    (candle : Candle) : Except String SysState :=
  if st.portfolio.open_positions = [] then .ok st
  else if cfg.stop_loss_pct ≤ 0 ∧ cfg.take_profit_pct ≤ 0 ∧
      cfg.trailing_take_profit_pct ≤ 0 ∧ atrEnabled cfg = false then .ok st
  else
    let _slippage_rate := slippageRate app none
    if st.portfolio.open_positions.any (fun kv => kv.1 = candle.symbol) then
      .error (positionAttrError "entry_atr")
    else .ok st

/-- `TradingApplication._apply_time_exits` from `app/lifecycle.py`, run
against the six-field `Position`: the loop body's first statement on a
position stored under the bar's symbol reads `position.entry_ts`
(line 792), raising `AttributeError` before any hold-time comparison. -/
def applyTimeExits (app : AppCfg) (st : SysState) (candle : Candle) :
    Except String SysState :=
  if st.portfolio.open_positions = [] then .ok st
  else
    let _slippage_rate := slippageRate app none
    if st.portfolio.open_positions.any (fun kv => kv.1 = candle.symbol) then
      .error (positionAttrError "entry_ts")
    else .ok st

/-- `TradingApplication._liquidate_positions` from `app/lifecycle.py`, run
against the six-field `Position`: positions without a last-seen price are
skipped; on the first position with one, the call reads
`position.fees_paid` (line 846) while building the `_close_position`
arguments and raises `AttributeError`.  With no priced position the loop
does nothing and the metrics refresh at the end still runs. -/
def liquidatePositions (app : AppCfg) (st : SysState) (timestamp : ℤ) :
    Except String SysState :=
  if st.portfolio.open_positions = [] then .ok st
  else
    let _slippage_rate := slippageRate app none
    if st.portfolio.open_positions.any
        (fun kv => (alistGet st.last_prices kv.1).isSome) then
      .error (positionAttrError "fees_paid")
    else .ok (refreshMetrics st timestamp)

/-- The transition table exactly as the spec states it:
`CREATED → SUBMITTED`, `SUBMITTED → {PARTIALLY_FILLED, FILLED, CANCELED,
REJECTED}`, `PARTIALLY_FILLED → {FILLED, CANCELED, REJECTED}`,
`FILLED → CLOSED`, with `CLOSED`, `CANCELED`, `REJECTED` terminal. -/
def specClaimedTable (s t : OrderState) : Bool :=
  match s, t with
  | .created, .submitted => true
  | .submitted, .partially_filled => true
  | .submitted, .filled => true
  | .submitted, .canceled => true
  | .submitted, .rejected => true
  | .partially_filled, .filled => true
  | .partially_filled, .canceled => true
  | .partially_filled, .rejected => true
  | .filled, .closed => true
  | _, _ => false

/-- The spec's table amended by the two transitions the code additionally
allows: `CREATED → CANCELED` and `CREATED → REJECTED`. -/
def specAmendedTable (s t : OrderState) : Bool :=
  specClaimedTable s t ||
    (match s, t with
     | .created, .canceled => true
     | .created, .rejected => true
     | _, _ => false)

/-! ### Concrete instances used in witnesses and counterexamples -/

def cfgBacktest : AppCfg := { mode := "backtest" }

def cfgLive : AppCfg := { mode := "live" }

/-- A LONG position of quantity 10 at entry 100, as the six-field source
`Position` represents it (there is no field to carry entry fees). -/
def posLong10 : Position :=
  { symbol := "BTCUSDT"
    quantity := 10
    entry_price := 100
    side := "LONG"
    max_price := 100
    min_price := 100 }

def stLong10 : SysState :=
  { portfolio :=
      { equity := 10000
        daily_drawdown := 0
        consecutive_losses := 0
        open_positions := [("BTCUSDT", posLong10)] } }

/-- An opposite-side SELL fill of quantity 4 at 110. -/
def sellCall4 : ExecCall :=
  { symbol := "BTCUSDT"
    side := "SHORT"
    quantity := 4
    price := 110
    timestamp := 100
    order_id := "o1" }

/-- An opposite-side SELL fill of quantity 15 at 110 (exceeds the held 10). -/
def sellCall15 : ExecCall :=
  { symbol := "BTCUSDT"
    side := "SHORT"
    quantity := 15
    price := 110
    timestamp := 100
    order_id := "o2" }

/-- A signal-driven LONG entry of quantity 10 at 100. -/
def openCall10 : ExecCall :=
  { symbol := "BTCUSDT"
    side := "LONG"
    quantity := 10
    price := 100
    timestamp := 50
    order_id := "o0" }

def stEmpty : SysState :=
  { portfolio :=
      { equity := 1000
        daily_drawdown := 0
        consecutive_losses := 0 } }

/-- A SHORT position of quantity 2 at entry 100. -/
def posShort2 : Position :=
  { symbol := "BTCUSDT"
    quantity := 2
    entry_price := 100
    side := "SHORT"
    max_price := 100
    min_price := 100 }

def stShort2 : SysState :=
  { portfolio :=
      { equity := 1000
        daily_drawdown := 0
        consecutive_losses := 0
        open_positions := [("BTCUSDT", posShort2)] } }

/-- An execution report carrying no exchange `execId` at all. -/
def fillNoId : FillEvent :=
  { exec_id := ""
    order_id := "o1"
    symbol := "BTCUSDT"
    side := "Buy"
    price := 90
    quantity := 1
    fee := 0
    timestamp := 100 }

/-- The same execution report delivered twice over the push path. -/
def eventsNoId : List (Bool × FillEvent) := [(true, fillNoId), (true, fillNoId)]

/-- An execution report with a genuine `execId`. -/
def fillE1 : FillEvent :=
  { exec_id := "e1"
    order_id := "o1"
    symbol := "BTCUSDT"
    side := "Buy"
    price := 90
    quantity := 1
    fee := 0
    timestamp := 100 }

/-- The same report delivered over the push path, the poll path and the
push path again. -/
def eventsE1 : List (Bool × FillEvent) := [(true, fillE1), (false, fillE1), (true, fillE1)]

def orderCreated : Order :=
  { order_id := "o1"
    client_order_id := "c1"
    symbol := "BTCUSDT"
    side := "Buy"
    quantity := 1
    status := .created
    signal_id := "s1" }

/-- An `_apply_execution` call with zero quantity. -/
def zeroQtyCall : ExecCall :=
  { symbol := "BTCUSDT"
    side := "LONG"
    quantity := 0
    price := 100
    timestamp := 100
    order_id := "oz" }

def cfgRiskTight : RiskConfig :=
  { max_consecutive_losses := 1
    exposure_limit := 1 }

def sigPlain : Signal :=
  { symbol := "BTCUSDT"
    direction := "LONG"
    confidence := 1 }

def sigForce : Signal :=
  { symbol := "BTCUSDT"
    direction := "LONG"
    confidence := 1
    force_execute := true }

/-- Zero equity, five consecutive losses, gross exposure 2: violates
`no_equity`, `max_consecutive_losses` and `exposure_limit` at once. -/
def pNoEquityBoth : PortfolioState :=
  { equity := 0
    daily_drawdown := 0
    consecutive_losses := 5
    gross_exposure := some 2 }

/-- Positive equity, five consecutive losses, gross exposure 2: violates
`max_consecutive_losses` and `exposure_limit` at once. -/
def pBothViol : PortfolioState :=
  { equity := 100
    daily_drawdown := 0
    consecutive_losses := 5
    gross_exposure := some 2 }

/-- Percentage-mode exit configuration: 5% stop, 10% take profit, 5%
trailing. -/
def cfgStops : RiskConfig :=
  { stop_loss_pct := 5 / 100
    take_profit_pct := 1 / 10
    trailing_take_profit_pct := 5 / 100 }

/-- A LONG position whose high watermark 120 has activated trailing. -/
def posTrail : Position :=
  { symbol := "BTCUSDT"
    quantity := 1
    entry_price := 100
    side := "LONG"
    max_price := 120
    min_price := 95 }

/-- A bar whose low 90 crosses both the stop level 95 and the trailing
level 114. -/
def candleBoth : Candle :=
  { timestamp := 100
    high := 100
    low := 90
    close := 95
    symbol := "BTCUSDT" }

/-- The ledger holding `posTrail`. -/
def stTrail : SysState :=
  { portfolio :=
      { equity := 1000
        daily_drawdown := 0
        consecutive_losses := 0
        open_positions := [("BTCUSDT", posTrail)] } }

/-- `stLong10` with a last-seen price for its symbol, so the liquidation
pass finds a price. -/
def stLong10lp : SysState :=
  { stLong10 with last_prices := [("BTCUSDT", 100)] }

/-- A signal-driven LONG entry of quantity 5 at 100. -/
def openCall5 : ExecCall :=
  { symbol := "BTCUSDT"
    side := "LONG"
    quantity := 5
    price := 100
    timestamp := 50
    order_id := "o5" }

/-- A SELL of the full held quantity 10 at 110. -/
def sellCall10 : ExecCall :=
  { symbol := "BTCUSDT"
    side := "SHORT"
    quantity := 10
    price := 110
    timestamp := 100
    order_id := "o3" }

/-- The portfolio as `run` initializes it with equity 1000, on UTC day
19000. -/
def pDD0 : PortfolioState :=
  { equity := 1000
    daily_drawdown := 0
    consecutive_losses := 0
    daily_start_equity := 1000
    daily_peak_equity := 1000
    daily_day := 19000 }

def tDD : ℤ := 19000 * 86400 + 60

/-- Equity trajectory 1000, 1100, 900 within UTC day 19000. -/
def ddTraj1 : PortfolioState := update_daily_drawdown pDD0 tDD

def ddTraj2 : PortfolioState :=
  update_daily_drawdown { ddTraj1 with equity := 1100 } (tDD + 60)

def ddTraj3 : PortfolioState :=
  update_daily_drawdown { ddTraj2 with equity := 900 } (tDD + 120)

def ksDisabled : KillSwitch :=
  { enabled := false
    triggered := false
    reason := none }

/-! ## Claim C10 -/

/-- C10: for every `KillSwitch` value with `enabled = False` and every
reason string, `trigger(reason)` leaves the kill switch unchanged —
`triggered` stays `False` and `reason` stays `None` when they were so, and
a disabled kill switch never latches even on a genuine risk breach. -/
theorem disabled_killswitch_never_latches (ks : KillSwitch) (reason : String)
    (h : ks.enabled = false) : ks.trigger reason = ks := by
  simp [KillSwitch.trigger, h]

/-- Witness for C10: a disabled, untriggered kill switch stays untriggered
through a genuine risk-breach trigger. -/
theorem disabled_killswitch_never_latches_witness :
    ksDisabled.trigger "max_daily_drawdown" = ksDisabled :=
  disabled_killswitch_never_latches ksDisabled "max_daily_drawdown" rfl

/-! ## Claim C4 -/

/-- The code's allow-sets agree with the amended table on every pair of
states. -/
theorem validTargets_eq_amended (s t : OrderState) :
    decide (t ∈ validTargets s) = specAmendedTable s t := by
  revert s t
  decide

/-- Counterexample to C4 as stated: `(CREATED, CANCELED)` is not in the
spec's table, yet `transition` succeeds on it and returns the order with
status `CANCELED`. -/
theorem state_machine_created_canceled_counterexample :
    specClaimedTable OrderState.created OrderState.canceled = false ∧
      OrderStateMachine.transition orderCreated OrderState.canceled =
        Except.ok { orderCreated with status := OrderState.canceled } :=
  ⟨rfl, rfl⟩

/-- C4 (amended): `transition` succeeds with the target status exactly on
the pairs of the spec's table extended with `CREATED → CANCELED` and
`CREATED → REJECTED`, and fails with an `InvalidTransition` error on every
other pair. -/
theorem order_state_machine_transition_table (o : Order) (t : OrderState) :
    OrderStateMachine.transition o t =
      (if specAmendedTable o.status t then Except.ok { o with status := t }
       else
         Except.error ("Invalid state transition " ++ stateName o.status
           ++ " -> " ++ stateName t)) := by
  unfold OrderStateMachine.transition
  rw [← validTargets_eq_amended o.status t]
  by_cases h : t ∈ validTargets o.status <;> simp [h]

/-! ## Claim C8 -/

/-- Counterexample to C8 as stated: an Execution Accounting call with zero
quantity does not fail fast — it returns the threaded state unchanged,
emitting no trade and touching no ledger field. -/
theorem zero_size_execution_silently_ignored_counterexample :
    zeroQtyCall.quantity ≤ 0 ∧
      applyExecution cfgBacktest stLong10 zeroQtyCall = .ok stLong10 := by
  constructor
  · decide
  · rfl

/-- C8 (amended): an invalid order state transition raises an error (no
silent coercion), while an Execution Accounting call with a zero or
negative size or price is silently ignored — it returns the state
unchanged rather than failing fast. -/
theorem invalid_transition_fails_nonpositive_execution_ignored :
    (∀ (o : Order) (t : OrderState), t ∉ validTargets o.status →
        ∃ msg, OrderStateMachine.transition o t = Except.error msg) ∧
      (∀ (cfg : AppCfg) (st : SysState) (c : ExecCall),
        c.quantity ≤ 0 ∨ c.price ≤ 0 → applyExecution cfg st c = .ok st) := by
  constructor
  · intro o t h
    exact ⟨"Invalid state transition " ++ stateName o.status ++ " -> "
        ++ stateName t, by simp [OrderStateMachine.transition, h]⟩
  · intro cfg st c h
    simp [applyExecution, h]

/-- Witness for C8 (amended): the `FILLED → SUBMITTED` transition errors,
and the zero-quantity accounting call returns its input state. -/
theorem invalid_transition_fails_nonpositive_execution_ignored_witness :
    (∃ msg, OrderStateMachine.transition { orderCreated with status := .filled }
        OrderState.submitted = Except.error msg) ∧
      applyExecution cfgBacktest stLong10 zeroQtyCall = .ok stLong10 :=
  ⟨invalid_transition_fails_nonpositive_execution_ignored.1
      { orderCreated with status := .filled } OrderState.submitted (by decide),
    invalid_transition_fails_nonpositive_execution_ignored.2 cfgBacktest
      stLong10 zeroQtyCall (Or.inl (by decide))⟩

/-! ## Claim C7 -/

/-- C7: `daily_drawdown` equals `(current day's peak equity − current
equity) / current day's peak equity` after every update with a positive
timestamp (whenever the resulting peak is positive); an update on a
timestamp whose UTC day differs from `daily_day` resets
`daily_start_equity` and `daily_peak_equity` to the current equity; and for
the equity trajectory `[1000, 1100, 900]` within one UTC day the drawdown
after the third point is `(1100 - 900) / 1100`. -/
theorem daily_drawdown_spec :
    (∀ (p : PortfolioState) (ts : ℤ), 0 < ts →
        0 < (update_daily_drawdown p ts).daily_peak_equity →
        (update_daily_drawdown p ts).daily_drawdown =
          ((update_daily_drawdown p ts).daily_peak_equity -
              (update_daily_drawdown p ts).equity) /
            (update_daily_drawdown p ts).daily_peak_equity) ∧
      (∀ (p : PortfolioState) (ts : ℤ), 0 < ts →
        Int.fdiv ts 86400 ≠ p.daily_day →
        (update_daily_drawdown p ts).daily_start_equity = p.equity ∧
          (update_daily_drawdown p ts).daily_peak_equity = p.equity) ∧
      ddTraj3.daily_drawdown = (1100 - 900) / 1100 := by
  refine ⟨?_, ?_, by rfl⟩
  · intro p ts hts
    unfold update_daily_drawdown
    rw [if_neg (not_le.mpr hts)]
    dsimp only
    split_ifs with h1 h2 h3 h3 h2 h3 h3 <;> intro hpk <;>
      first
        | rfl
        | exact absurd hpk h3
  · intro p ts hts hday
    unfold update_daily_drawdown
    rw [if_neg (not_le.mpr hts)]
    dsimp only
    split_ifs with h1 h2 h3 h3 h2 h3 h3 <;>
      first
        | exact ⟨rfl, rfl⟩
        | exact absurd h2 (lt_irrefl _)
        | exact absurd (Or.inl (Ne.symm hday)) h1

/-- Witness for C7: on the concrete trajectory, the first update keeps the
recomputed drawdown formula, and an update one day later resets start and
peak to the current equity. -/
theorem daily_drawdown_spec_witness :
    (update_daily_drawdown pDD0 tDD).daily_drawdown =
        ((update_daily_drawdown pDD0 tDD).daily_peak_equity -
            (update_daily_drawdown pDD0 tDD).equity) /
          (update_daily_drawdown pDD0 tDD).daily_peak_equity ∧
      (update_daily_drawdown pDD0 (tDD + 86400)).daily_start_equity =
        pDD0.equity :=
  ⟨daily_drawdown_spec.1 pDD0 tDD (by decide) (by decide),
    (daily_drawdown_spec.2.1 pDD0 (tDD + 86400) (by decide) (by decide)).1⟩

/-! ## Claim C5 -/

/-- Counterexample to C5 as stated: with both `max_consecutive_losses` and
`exposure_limit` violated, a zero-equity portfolio is rejected with reason
`no_equity`, and a `force_execute` signal on a positive-equity portfolio is
rejected with reason `invalid_notional` — neither yields
`max_consecutive_losses`. -/
theorem risk_ordering_counterexample :
    cfgRiskTight.max_consecutive_losses ≤ pNoEquityBoth.consecutive_losses ∧
      geOpt pNoEquityBoth.gross_exposure cfgRiskTight.exposure_limit = true ∧
      approve cfgRiskTight sigPlain pNoEquityBoth =
        ⟨false, some "no_equity", 0⟩ ∧
      cfgRiskTight.max_consecutive_losses ≤ pBothViol.consecutive_losses ∧
      geOpt pBothViol.gross_exposure cfgRiskTight.exposure_limit = true ∧
      approve cfgRiskTight sigForce pBothViol =
        ⟨false, some "invalid_notional", 0⟩ :=
  ⟨by decide, by rfl, by rfl, by decide, by rfl, by rfl⟩

/-- C5 (amended): for every signal without the `force_execute` metadata flag,
`approve` evaluates its checks in the fixed order `no_equity`,
`max_consecutive_losses`, `max_daily_drawdown`, `existing_position`,
`min_expectancy`, `exposure_limit`, `correlation_limit`, `low_confidence`,
sizing, and the first failing check determines the rejection reason; in
particular a portfolio with positive equity that simultaneously violates
`max_consecutive_losses` and `exposure_limit` is rejected with reason
`max_consecutive_losses`. -/
theorem risk_approve_first_failing_check (cfg : RiskConfig) (signal : Signal)
    (p : PortfolioState) (hforce : signal.force_execute = false) :
    (p.equity ≤ 0 → approve cfg signal p = ⟨false, some "no_equity", 0⟩) ∧
      (0 < p.equity → cfg.max_consecutive_losses ≤ p.consecutive_losses →
        approve cfg signal p = ⟨false, some "max_consecutive_losses", 0⟩) ∧
      (0 < p.equity → p.consecutive_losses < cfg.max_consecutive_losses →
        cfg.max_daily_drawdown ≤ p.daily_drawdown →
        approve cfg signal p = ⟨false, some "max_daily_drawdown", 0⟩) ∧
      (∀ existing, 0 < p.equity →
        p.consecutive_losses < cfg.max_consecutive_losses →
        p.daily_drawdown < cfg.max_daily_drawdown →
        alistGet p.open_positions signal.symbol = some existing →
        signal.direction ≠ "FLAT" → signal.direction = existing.side →
        approve cfg signal p = ⟨false, some "existing_position", 0⟩) ∧
      (0 < p.equity → p.consecutive_losses < cfg.max_consecutive_losses →
        p.daily_drawdown < cfg.max_daily_drawdown →
        alistGet p.open_positions signal.symbol = none →
        0 < cfg.min_expectancy → p.expectancy < cfg.min_expectancy →
        approve cfg signal p = ⟨false, some "min_expectancy", 0⟩) ∧
      (0 < p.equity → p.consecutive_losses < cfg.max_consecutive_losses →
        p.daily_drawdown < cfg.max_daily_drawdown →
        alistGet p.open_positions signal.symbol = none →
        ¬(0 < cfg.min_expectancy ∧ p.expectancy < cfg.min_expectancy) →
        geOpt p.gross_exposure cfg.exposure_limit = true →
        approve cfg signal p = ⟨false, some "exposure_limit", 0⟩) ∧
      (0 < p.equity → p.consecutive_losses < cfg.max_consecutive_losses →
        p.daily_drawdown < cfg.max_daily_drawdown →
        alistGet p.open_positions signal.symbol = none →
        ¬(0 < cfg.min_expectancy ∧ p.expectancy < cfg.min_expectancy) →
        geOpt p.gross_exposure cfg.exposure_limit = false →
        cfg.correlation_limit ≤ p.correlation →
        approve cfg signal p = ⟨false, some "correlation_limit", 0⟩) ∧
      (0 < p.equity → p.consecutive_losses < cfg.max_consecutive_losses →
        p.daily_drawdown < cfg.max_daily_drawdown →
        alistGet p.open_positions signal.symbol = none →
        ¬(0 < cfg.min_expectancy ∧ p.expectancy < cfg.min_expectancy) →
        geOpt p.gross_exposure cfg.exposure_limit = false →
        p.correlation < cfg.correlation_limit →
        signal.confidence < 1 / 100 →
        approve cfg signal p = ⟨false, some "low_confidence", 0⟩) ∧
      (0 < p.equity → p.consecutive_losses < cfg.max_consecutive_losses →
        p.daily_drawdown < cfg.max_daily_drawdown →
        alistGet p.open_positions signal.symbol = none →
        ¬(0 < cfg.min_expectancy ∧ p.expectancy < cfg.min_expectancy) →
        geOpt p.gross_exposure cfg.exposure_limit = false →
        p.correlation < cfg.correlation_limit →
        1 / 100 ≤ signal.confidence →
        (approve cfg signal p).reason = none ∨
          approve cfg signal p = ⟨false, some "exposure_limit", 0⟩) ∧
      (0 < p.equity → cfg.max_consecutive_losses ≤ p.consecutive_losses →
        geOpt p.gross_exposure cfg.exposure_limit = true →
        approve cfg signal p = ⟨false, some "max_consecutive_losses", 0⟩) := by
  refine ⟨?_, ?_, ?_, ?_, ?_, ?_, ?_, ?_, ?_, ?_⟩
  · intro h
    simp [approve, hforce, h]
  · intro h1 h2
    simp [approve, hforce, not_le.mpr h1, h2]
  · intro h1 h2 h3
    simp [approve, hforce, not_le.mpr h1, not_le.mpr h2, h3]
  · intro ex h1 h2 h3 hget hd hs
    have hcond : ¬(signal.direction = "FLAT" ∨ signal.direction ≠ ex.side) :=
      not_or.mpr ⟨hd, not_not_intro hs⟩
    simp [approve, hforce, not_le.mpr h1, not_le.mpr h2, not_le.mpr h3, hget,
      hcond]
  · intro h1 h2 h3 hget hme hexp
    simp [approve, hforce, not_le.mpr h1, not_le.mpr h2, not_le.mpr h3, hget,
      hme, hexp]
  · intro h1 h2 h3 hget hne hge
    simp [approve, hforce, not_le.mpr h1, not_le.mpr h2, not_le.mpr h3, hget,
      hne, hge]
  · intro h1 h2 h3 hget hne hge hc
    simp [approve, hforce, not_le.mpr h1, not_le.mpr h2, not_le.mpr h3, hget,
      hne, hge, hc]
  · intro h1 h2 h3 hget hne hge hc hconf
    simp [approve, hforce, not_le.mpr h1, not_le.mpr h2, not_le.mpr h3, hget,
      hne, hge, not_le.mpr hc, hconf]
    intro h
    exfalso
    rw [one_div] at hconf
    exact absurd hconf (not_lt.mpr h)
  · intro h1 h2 h3 hget hne hge hc hconf
    cases hgx : p.gross_exposure with
    | none => rw [hgx] at hge; simp [geOpt] at hge
    | some g =>
      simp only [approve, hforce, Bool.false_eq_true, if_false,
        if_neg (not_le.mpr h1), if_neg (not_le.mpr h2), if_neg (not_le.mpr h3),
        hget, if_neg hne, hge, if_neg (not_le.mpr hc),
        if_neg (not_lt.mpr hconf), hgx]
      split_ifs <;> simp
  · intro h1 h2 hge
    simp [approve, hforce, not_le.mpr h1, h2]

/-- Witness for C5 (amended): a positive-equity portfolio with five
consecutive losses (limit 1) and gross exposure 2 (limit 1) is rejected
with reason `max_consecutive_losses`. -/
theorem risk_approve_first_failing_check_witness :
    approve cfgRiskTight sigPlain pBothViol =
      ⟨false, some "max_consecutive_losses", 0⟩ :=
  (risk_approve_first_failing_check cfgRiskTight sigPlain pBothViol
    rfl).2.2.2.2.2.2.2.2.2 (by decide) (by decide) (by rfl)

/-! ## Claim C6 -/

/-- C6 (code bug): the exit evaluator never reaches its
stop-then-trailing-then-take selection (`lifecycle.py` lines 748-759): the
loop body first reads `position.entry_atr` (line 679), which the six-field
source `Position` does not have, so the bar evaluation raises
`AttributeError` and no exit reason is ever recorded.  Concretely, on the
claim's own scenario — a LONG position entered at 100 with high watermark
120 under a 5% stop, 10% take-profit and 5% trailing configuration, on a
bar with low 90 that crosses both the stop level 95 and the trailing level
114 — the call raises instead of recording `stop_loss`. -/
theorem exit_priority_unreachable :
    applyCandleStops cfgStops cfgBacktest stTrail candleBoth =
      .error (positionAttrError "entry_atr") := by
  with_unfolding_all rfl

/-! ## Claim C9 -/

/-- C9 (code bug): the positivity invariant is never maintained, because no
operation that would store or remove a position completes against the
six-field source `Position`: the opening call raises `TypeError`
constructing the ten-keyword `Position(...)` (`lifecycle.py` line 377), so
nothing is ever stored; the full close that should remove the held
position raises `AttributeError` reading `fees_paid` (line 411); the
time-exit pass raises reading `entry_ts` (line 792); and the liquidation
pass raises reading `fees_paid` (line 846). -/
theorem open_positions_never_maintained :
    applyExecution cfgBacktest stEmpty openCall5 = .error positionCtorError ∧
      applyExecution cfgBacktest stLong10 sellCall10 =
        .error (positionAttrError "fees_paid") ∧
      applyTimeExits cfgBacktest stLong10 candleBoth =
        .error (positionAttrError "entry_ts") ∧
      liquidatePositions cfgBacktest stLong10lp 100 =
        .error (positionAttrError "fees_paid") := by
  refine ⟨?_, ?_, ?_, ?_⟩ <;> with_unfolding_all rfl

/-! ## Claim C3 -/

/-- C3 (code bug): the claimed partial close and reversal never happen.
The held LONG position of quantity 10 at entry 100, as the six-field
source `Position` stores it, has no `fees_paid` attribute; applying the
opposite SELL fill of 4 at 110 reads it (`lifecycle.py` line 411) and
raises `AttributeError` before any Trade is emitted or the quantity
reduced, and the flatten-and-reverse SELL of 15 at 110 raises at the same
read, before the ten-keyword reversal constructor (lines 432-443, itself a
`TypeError`) could run. -/
theorem partial_close_and_reversal_raise :
    applyExecution cfgBacktest stLong10 sellCall4 =
        .error (positionAttrError "fees_paid") ∧
      applyExecution cfgBacktest stLong10 sellCall15 =
        .error (positionAttrError "fees_paid") := by
  refine ⟨?_, ?_⟩ <;> with_unfolding_all rfl

/-! ## Claim C2 -/

/-- C2 (code bug): no position lineage exists to conserve.  Every
`_apply_execution` call on the staged source either returns with the
threaded state untouched — the non-positive guard (line 370) and the
same-side call without `allow_add` (line 394) — or raises before recording
a trade or storing a position: `TypeError` from the ten-keyword
`Position(...)` on an open (line 377), `AttributeError` reading the
missing `fees_paid` on an add (line 400) or a close (lines 411 and 426).
The second conjunct evaluates the opening call of the claimed lineage: it
raises instead of entering any quantity into a lineage. -/
theorem execution_accounting_conservation_unexercisable (cfg : AppCfg)
    (st : SysState) (c : ExecCall) :
    (applyExecution cfg st c = .ok st ∨
        ∃ msg, applyExecution cfg st c = .error msg) ∧
      applyExecution cfgBacktest stEmpty openCall10 =
        .error positionCtorError := by
  constructor
  · unfold applyExecution
    dsimp only
    split
    · exact Or.inl rfl
    · split
      · exact Or.inr ⟨_, rfl⟩
      · split
        · split
          · exact Or.inr ⟨_, rfl⟩
          · exact Or.inl rfl
        · split
          · exact Or.inr ⟨_, rfl⟩
          · exact Or.inr ⟨_, rfl⟩
  · with_unfolding_all rfl


/-! ## Claim C1 -/

/-- Both reconciliation sources skip a report whose non-empty `exec_id`
is already in the seen set, touching nothing. -/
theorem ingest_skip (r : ReconState) (e : Bool × FillEvent)
    (hid : e.2.exec_id ≠ "") (hmem : e.2.exec_id ∈ r.seen_exec_ids) :
    ingest r e = r := by
  rcases e with ⟨src, f⟩
  dsimp only at hid hmem ⊢
  cases src
  · show pollIngest r f = r
    unfold pollIngest
    rw [if_neg hid, if_pos hmem]
  · show wsIngest r f = r
    unfold wsIngest
    rw [if_pos ⟨hid, hmem⟩]

/-- Feeding any batch of reports that all carry an already-seen non-empty
`exec_id` leaves the reconciliation state unchanged. -/
theorem feedEvents_skip (id : String) (hid : id ≠ "") :
    ∀ (evs : List (Bool × FillEvent)) (r : ReconState),
      (∀ e ∈ evs, (e.2).exec_id = id) → id ∈ r.seen_exec_ids →
      feedEvents r evs = r := by
  intro evs
  induction evs with
  | nil => intro r _ _; rfl
  | cons e rest ih =>
    intro r hall hmem
    have he : e.2.exec_id = id := hall e (by simp)
    unfold feedEvents
    rw [List.foldl_cons,
      ingest_skip r e (by rw [he]; exact hid) (by rw [he]; exact hmem)]
    exact ih r (fun e' h' => hall e' (List.mem_cons_of_mem _ h')) hmem

/-- A report with a fresh non-empty `exec_id` is marked seen and enqueued
by either source. -/
theorem ingest_fresh (r : ReconState) (e : Bool × FillEvent)
    (hid : e.2.exec_id ≠ "") (hmem : e.2.exec_id ∉ r.seen_exec_ids) :
    (ingest r e).seen_exec_ids = e.2.exec_id :: r.seen_exec_ids ∧
      (ingest r e).fills = r.fills ++ [e.2] := by
  rcases e with ⟨src, f⟩
  dsimp only at hid hmem ⊢
  cases src
  · show (pollIngest r f).seen_exec_ids = _ ∧ (pollIngest r f).fills = _
    unfold pollIngest
    rw [if_neg hid, if_neg hmem]
    exact ⟨rfl, rfl⟩
  · show (wsIngest r f).seen_exec_ids = _ ∧ (wsIngest r f).fills = _
    unfold wsIngest
    rw [if_neg (fun h => hmem h.2)]
    dsimp only
    rw [if_pos hid]
    split_ifs <;> exact ⟨rfl, rfl⟩

/-- `applyDrained` on a single drained fill is exactly one
`_apply_fill_accounting` call. -/
theorem applyDrained_single (cfg : AppCfg) (st : SysState) (f : FillEvent) :
    applyDrained cfg st [f] = applyFillAccounting cfg st f := by
  cases h : applyFillAccounting cfg st f with
  | ok st' => simp [applyDrained, h]
  | error msg => simp [applyDrained, h]

/-- The first feed-drain-apply pass on a duplicated report stream applies
Execution Accounting exactly once, to the first report. -/
theorem reconCycle_dedup_first (cfg : AppCfg) (e0 : Bool × FillEvent)
    (rest : List (Bool × FillEvent)) (oo : List (String × String))
    (st0 : SysState) (hid : e0.2.exec_id ≠ "")
    (hall : ∀ e ∈ rest, e.2.exec_id = e0.2.exec_id) :
    ∃ r1 : ReconState,
      reconCycle cfg (e0 :: rest) (⟨[], [], oo⟩, .ok st0) =
        (r1, applyFillAccounting cfg st0 e0.2) ∧
      e0.2.exec_id ∈ r1.seen_exec_ids ∧ r1.fills = [] := by
  obtain ⟨hs, hf⟩ := ingest_fresh ⟨[], [], oo⟩ e0 hid (by simp)
  have hfeed : feedEvents (⟨[], [], oo⟩ : ReconState) (e0 :: rest) =
      ingest ⟨[], [], oo⟩ e0 := by
    unfold feedEvents
    rw [List.foldl_cons]
    exact feedEvents_skip e0.2.exec_id hid rest _ hall (by rw [hs]; simp)
  refine ⟨(drainFills (ingest ⟨[], [], oo⟩ e0)).2, ?_, ?_, rfl⟩
  · unfold reconCycle
    dsimp only
    rw [hfeed]
    unfold drainFills
    dsimp only
    rw [hf]
    simp [applyDrained_single]
  · show e0.2.exec_id ∈ (ingest (⟨[], [], oo⟩ : ReconState) e0).seen_exec_ids
    rw [hs]
    simp

/-- A pass over an already-seen stream with an empty queue is a fixpoint,
whether the previous pass completed or raised. -/
theorem reconCycle_skip (cfg : AppCfg) (evs : List (Bool × FillEvent))
    (id : String) (hid : id ≠ "") (hall : ∀ e ∈ evs, e.2.exec_id = id)
    (r : ReconState) (x : Except String SysState)
    (hmem : id ∈ r.seen_exec_ids) (hfills : r.fills = []) :
    reconCycle cfg evs (r, x) = (r, x) := by
  cases x with
  | error msg => rfl
  | ok st =>
    rcases r with ⟨seen, fills, oo⟩
    dsimp only at hfills hmem
    subst hfills
    unfold reconCycle
    dsimp only
    rw [feedEvents_skip id hid evs _ hall hmem]
    rfl

/-- Iterating a fixpoint pass any number of times changes nothing. -/
theorem reconCycles_skip (cfg : AppCfg) (evs : List (Bool × FillEvent))
    (id : String) (hid : id ≠ "") (hall : ∀ e ∈ evs, e.2.exec_id = id)
    (r : ReconState) (x : Except String SysState)
    (hmem : id ∈ r.seen_exec_ids) (hfills : r.fills = []) :
    ∀ n, reconCycles cfg evs n (r, x) = (r, x) := by
  intro n
  induction n with
  | zero => rfl
  | succ m ih =>
    show reconCycles cfg evs m (reconCycle cfg evs (r, x)) = (r, x)
    rw [reconCycle_skip cfg evs id hid hall r x hmem hfills]
    exact ih

/-- C1 (amended): for any sequence of fill events sharing a non-empty
`exec_id`, feeding the sequence through fill reconciliation (push and poll
paths) and running the drain-and-apply pass any number of times yields
exactly the outcome of a single Execution Accounting application of the
shared fill — the fill is handed to accounting once and never
double-applied.  (On the staged source that single application itself
raises; see C2.) -/
theorem fill_reconciliation_idempotent (cfg : AppCfg)
    (e0 : Bool × FillEvent) (rest : List (Bool × FillEvent))
    (oo : List (String × String)) (st0 : SysState) (n : ℕ)
    (hid : e0.2.exec_id ≠ "")
    (hall : ∀ e ∈ e0 :: rest, e.2.exec_id = e0.2.exec_id) (hn : 0 < n) :
    (reconCycles cfg (e0 :: rest) n (⟨[], [], oo⟩, .ok st0)).2 =
      applyFillAccounting cfg st0 e0.2 := by
  obtain ⟨m, rfl⟩ : ∃ m, n = m + 1 := ⟨n - 1, by omega⟩
  obtain ⟨r1, hcy, hmem, hfil⟩ := reconCycle_dedup_first cfg e0 rest oo st0 hid
    (fun e he => hall e (List.mem_cons_of_mem _ he))
  show (reconCycles cfg (e0 :: rest) m
      (reconCycle cfg (e0 :: rest) (⟨[], [], oo⟩, .ok st0))).2 = _
  rw [hcy]
  rw [reconCycles_skip cfg (e0 :: rest) e0.2.exec_id hid hall r1
    (applyFillAccounting cfg st0 e0.2) hmem hfil m]

/-- Witness for C1 (amended): the report `e1` delivered push, poll, push
yields exactly the single-application outcome. -/
theorem fill_reconciliation_idempotent_witness :
    (reconCycles cfgLive eventsE1 1 (⟨[], [], []⟩, .ok stShort2)).2 =
      applyFillAccounting cfgLive stShort2 fillE1 :=
  fill_reconciliation_idempotent cfgLive (true, fillE1)
    [(false, fillE1), (true, fillE1)] [] stShort2 1 (by decide) (by decide)
    (by decide)

/-- Counterexample to C1 as stated: two identical push-path reports whose
shared `exec_id` is empty are both enqueued — the push path only
deduplicates non-empty ids (`order_tracker.py` line 156) — so the drained
queue hands the duplicate to Execution Accounting twice; and a single
application of the fill changes no equity at all: against the held SHORT
position it raises `AttributeError` reading the missing `fees_paid`
(`lifecycle.py` line 411). -/
theorem fill_reconciliation_counterexample :
    (∀ e ∈ eventsNoId, (e.2).exec_id = "") ∧
      (drainFills (feedEvents ⟨[], [], []⟩ eventsNoId)).1 =
        [fillNoId, fillNoId] ∧
      applyFillAccounting cfgLive stShort2 fillNoId =
        .error (positionAttrError "fees_paid") :=
  ⟨by decide, by rfl, by with_unfolding_all rfl⟩

end CryptoTrader

